import Mathlib

/-!
# The init RPC dispatcher of `usr/init/main.c`

A shallow embedding of the three callbacks of `usr/init/main.c`
(`recv_handler`, `parent_send_handshake`, `parent_send_memory`) and of the
two globals they share (`clients`, `num_conns`).

Conventions of the embedding.

* Machine words (`uintptr_t`, `uint32_t`, `size_t`) are natural numbers; the
  word widths are fixed by headers that are not among the sources.
* Every call into the library (`lmp_chan_recv`, `lmp_chan_register_send`,
  `frame_alloc`, ...) is recorded as an `event` of the trace a callback
  produces, with its arguments and its return value.  The return values are
  inputs of the callback (`recv_in`, `frame_alloc_fn`, the `send_err`
  argument).
* The table `clients` is a heap block with a size.  `recv_handler` allocates
  it with `malloc` for one entry and later calls `realloc` without storing the
  result; whether `realloc` resizes the block where it is or returns a new
  block and frees the old one is an input (`recv_in.realloc_moves`).  An access
  through `NULL`, through a pointer to a freed block, past the end of the
  block, or to a cell never written has no defined behaviour in C; the
  callback then has the outcome `undefined` with the kind of access.
  Allocation calls are taken to succeed.
* The argument cells of closures, `free` and `debug_printf` are not part of
  the state.
-/

namespace Barrelfish

/-- Error values of the library (`errval_t`). -/
abbrev errval_t := Nat

/-- Modelled from the spec: `SYS_ERR_OK` of the library's error header, the
success value; the spec's wire format gives it as `error_detail(=0)`. -/
def SYS_ERR_OK : errval_t := 0

/-- Modelled from the spec: `struct capref` of the library headers, a
capability reference (an address in the capability space). -/
structure capref where
  cnode : Nat
  slot : Nat
deriving DecidableEq, Repr

/-- Modelled from the spec: `struct lmp_chan` of the library headers.  The
source reads and writes the fields `remote` and `local_cap`; the remaining
fields are carried as one value. -/
structure lmp_chan where
  local_cap : capref
  remote : capref
  endpoint : Nat
deriving DecidableEq, Repr

/-- Constants and predicates of the library headers that `main.c` uses and
that are not defined in it. -/
structure aos_env where
  AOS_RPC_OK : Nat
  AOS_RPC_FAILED : Nat
  AOS_RPC_HANDSHAKE : Nat
  AOS_RPC_MEMORY : Nat
  LMP_FLAG_SYNC : Nat
  NULL_CAP : capref
  err_is_fail : errval_t → Bool
  lmp_err_is_transient : errval_t → Bool

/-- The three callbacks of `main.c` that are wrapped in closures. -/
inductive handler_fn
  | recv_handler
  | parent_send_handshake
  | parent_send_memory
deriving DecidableEq, Repr

/-- One heap cell pointed to by an entry of a `void**` argument array. -/
inductive arg_cell
  | chan (c : lmp_chan)
  | u32 (n : Nat)
  | cap (c : capref)
  | size (n : Nat)
deriving DecidableEq, Repr

/-- What `MKCLOSURE(handler, args)` builds. -/
structure closure where
  handler : handler_fn
  args : List arg_cell
deriving DecidableEq, Repr

/-- Library calls made by the callbacks, with arguments and return value. -/
inductive event
  | lmp_chan_recv (lc : lmp_chan) (ret : errval_t)
  | lmp_chan_register_recv (lc : lmp_chan) (c : closure)
  | lmp_chan_register_send (lc : lmp_chan) (c : closure) (ret : errval_t)
  | lmp_chan_alloc_recv_slot (lc : lmp_chan) (ret : errval_t)
  | frame_alloc (dest : capref) (bytes : Nat) (ret : errval_t)
  | lmp_chan_send2 (lc : lmp_chan) (flags : Nat) (cap : capref) (w0 w1 : Nat)
      (ret : errval_t)
  | lmp_chan_send3 (lc : lmp_chan) (flags : Nat) (cap : capref) (w0 w1 w2 : Nat)
      (ret : errval_t)
deriving DecidableEq, Repr

/-- Kinds of memory access without defined behaviour. -/
inductive violation
  | null_deref
  | dangling
  | out_of_bounds
  | uninitialised
deriving DecidableEq, Repr

/-- A value, or the memory access without defined behaviour that was made
instead. -/
inductive outcome (α : Type)
  | ok (a : α)
  | undefined (v : violation)
deriving DecidableEq, Repr

/-- What the global pointer `clients` points to: nothing (`NULL`), a live heap
block of `cells.length` entries (a cell is `none` until it is written), or a
block that `realloc` has freed. -/
inductive clients_ptr
  | null
  | block (cells : List (Option lmp_chan))
  | freed
deriving DecidableEq, Repr

/-- The globals `clients` and `num_conns` of `main.c`. -/
structure init_state where
  clients : clients_ptr
  num_conns : Nat
deriving DecidableEq, Repr

/-- The globals at program start: `clients = NULL`, `num_conns = 0`. -/
def init_state.empty : init_state :=
  ⟨clients_ptr.null, 0⟩

/-- The read `clients[i]`. -/
def clients_load (p : clients_ptr) (i : Nat) : outcome lmp_chan :=
  match p with
  | clients_ptr.null => outcome.undefined violation.null_deref
  | clients_ptr.freed => outcome.undefined violation.dangling
  | clients_ptr.block cells =>
    match cells[i]? with
    | some (some c) => outcome.ok c
    | some none => outcome.undefined violation.uninitialised
    | none => outcome.undefined violation.out_of_bounds

/-- The write `clients[i] = c`. -/
def clients_store (p : clients_ptr) (i : Nat) (c : lmp_chan) : outcome clients_ptr :=
  match p with
  | clients_ptr.null => outcome.undefined violation.null_deref
  | clients_ptr.freed => outcome.undefined violation.dangling
  | clients_ptr.block cells =>
    if i < cells.length then outcome.ok (clients_ptr.block (cells.set i (some c)))
    else outcome.undefined violation.out_of_bounds

/-- A block of `n` entries that starts with the content of `cells`. -/
def resize_cells (cells : List (Option lmp_chan)) (n : Nat) : List (Option lmp_chan) :=
  (cells ++ List.replicate (n - cells.length) none).take n

/-- Lines 61-65 of `recv_handler`, the value of `clients` afterwards.  With
`clients == NULL` it becomes a fresh block of one entry.  Otherwise
`realloc(clients, (num_conns + 1) * sizeof(struct lmp_chan))` is called and its
result is not stored: when the block is resized where it is, `clients` still
points to it; when `realloc` moves it, the old block is freed and `clients`
dangles. -/
def clients_alloc (p : clients_ptr) (num_conns : Nat) (realloc_moves : Bool) :
    outcome clients_ptr :=
  match p with
  | clients_ptr.null => outcome.ok (clients_ptr.block [none])
  | clients_ptr.block cells =>
    if realloc_moves then outcome.ok clients_ptr.freed
    else outcome.ok (clients_ptr.block (resize_cells cells (num_conns + 1)))
  | clients_ptr.freed => outcome.undefined violation.dangling

/-- What the library hands to one run of `recv_handler`: the return value of
`lmp_chan_recv`, the message words `msg.words[0 .. msg.buf.msglen - 1]` and the
capability `cap` after that call, the return values of
`lmp_chan_register_send` and `lmp_chan_alloc_recv_slot`, and whether the
`realloc` of line 64 returns a new block. -/
structure recv_in where
  err : errval_t
  words : List Nat
  cap : capref
  register_send_err : errval_t
  alloc_recv_slot_err : errval_t
  realloc_moves : Bool
deriving DecidableEq, Repr

/-- What `frame_alloc(retcap, size, &retsize)` leaves behind: its return
value, `*retcap` and `retsize` after the call. -/
structure frame_alloc_out where
  err : errval_t
  cap : capref
  retsize : Nat
deriving DecidableEq, Repr

/-- The frame allocator, an external collaborator: from `*retcap` before the
call and the requested size to what the call leaves behind. -/
abbrev frame_alloc_fn := capref → Nat → frame_alloc_out

/-- Result of running a callback: the globals afterwards, the library calls it
made, and its return value. -/
structure handler_out where
  st : init_state
  trace : List event
  ret : errval_t
deriving DecidableEq, Repr

/-- The closure `MKCLOSURE((void *) recv_handler, arg)`, where `arg` points to
the channel `lc`. -/
def recv_closure (lc : lmp_chan) : closure :=
  ⟨handler_fn.recv_handler, [arg_cell.chan lc]⟩

/-- Word `i` of the received message: `msg.words[i]`.  The buffer is
zero-initialised by `LMP_RECV_MSG_INIT`, so a word past `msglen` reads 0. -/
def msg_word (r : recv_in) (i : Nat) : Nat :=
  r.words.getD i 0

/-- Modelled from the spec: the macro `CHECK(where, err)` of a header that is
not among the sources.  The spec has a failed call "reported upward": when
`err_is_fail(err)` holds, the enclosing function returns `err`; otherwise it
goes on.  `CHECK_returns E err` says that the macro returns. -/
def CHECK_returns (E : aos_env) (err : errval_t) : Bool :=
  E.err_is_fail err

/-- The two statements `clients[num_conns] = **lc; clients[num_conns].remote =
cap;` build this value: the channel `lc` with its `remote` field overwritten. -/
def set_remote (lc : lmp_chan) (cap : capref) : lmp_chan :=
  { lc with remote := cap }

/-- Lines 117-122 of `recv_handler`: provision the receive slot under `CHECK`
and re-register the receive callback.  The name `rpc` in `&rpc->lc` is not
declared in `main.c`; following the spec ("the dispatcher re-registers the
channel's receive callback") the slot is provisioned and the callback
registered for the channel being served. -/
def recv_handler_reregister (E : aos_env) (lc : lmp_chan) (r : recv_in)
    (st : init_state) (t : List event) : handler_out :=
  let t1 := t ++ [event.lmp_chan_alloc_recv_slot lc r.alloc_recv_slot_err]
  if CHECK_returns E r.alloc_recv_slot_err then
    ⟨st, t1, r.alloc_recv_slot_err⟩
  else
    ⟨st, t1 ++ [event.lmp_chan_register_recv lc (recv_closure lc)], r.err⟩

/-- Lines 112-114 of `recv_handler`, followed by the tail: register the send
continuation `MKCLOSURE(response, response_args)` under `CHECK`. -/
def recv_handler_respond (E : aos_env) (lc : lmp_chan) (r : recv_in)
    (st : init_state) (t : List event) (response : handler_fn)
    (response_args : List arg_cell) : handler_out :=
  let t1 := t ++ [event.lmp_chan_register_send lc ⟨response, response_args⟩
    r.register_send_err]
  if CHECK_returns E r.register_send_err then
    ⟨st, t1, r.register_send_err⟩
  else
    recv_handler_reregister E lc r st t1

/-- Lines 42-50 of `recv_handler`: the receive, and the re-registration when
it failed with a transient error.  The branch has no `return`; control goes on
to line 52. -/
def recv_handler_receive (E : aos_env) (lc : lmp_chan) (r : recv_in) : List event :=
  if E.err_is_fail r.err && E.lmp_err_is_transient r.err then
    [event.lmp_chan_recv lc r.err, event.lmp_chan_register_recv lc (recv_closure lc)]
  else
    [event.lmp_chan_recv lc r.err]

/-- The callback `recv_handler` (lines 39-123), run on the channel `lc` (that
is `**lc` in the source) with the library results `r`. -/
def recv_handler (E : aos_env) (st : init_state) (lc : lmp_chan) (r : recv_in) :
    outcome handler_out :=
  let t1 := recv_handler_receive E lc r
  if 0 < r.words.length then
    if msg_word r 0 = E.AOS_RPC_HANDSHAKE then
      -- lines 61-65
      match clients_alloc st.clients st.num_conns r.realloc_moves with
      | outcome.undefined v => outcome.undefined v
      | outcome.ok p1 =>
        -- clients[num_conns] = **lc; clients[num_conns].remote = cap;
        match clients_store p1 st.num_conns (set_remote lc r.cap) with
        | outcome.undefined v => outcome.undefined v
        | outcome.ok p2 =>
          -- *response_args[0] = clients[num_conns];
          match clients_load p2 st.num_conns with
          | outcome.undefined v => outcome.undefined v
          | outcome.ok entry =>
            outcome.ok (recv_handler_respond E lc r ⟨p2, st.num_conns + 1⟩ t1
              handler_fn.parent_send_handshake
              [arg_cell.chan entry, arg_cell.u32 st.num_conns])
    else if msg_word r 0 = E.AOS_RPC_MEMORY then
      let conn := msg_word r 1
      -- *response_args[0] = clients[conn];
      match clients_load st.clients conn with
      | outcome.undefined v => outcome.undefined v
      | outcome.ok target =>
        outcome.ok (recv_handler_respond E lc r st t1 handler_fn.parent_send_memory
          [arg_cell.chan target, arg_cell.u32 conn, arg_cell.cap r.cap,
            arg_cell.size (msg_word r 2)])
    else
      -- default: return 1;
      outcome.ok ⟨st, t1, 1⟩
  else
    outcome.ok (recv_handler_reregister E lc r st t1)

/-- The continuation `parent_send_handshake` (lines 125-142).  `send_err` is
the return value of `lmp_chan_send2`.  An argument array of another shape is
returned as `none`. -/
def parent_send_handshake (E : aos_env) (st : init_state) (args : List arg_cell)
    (send_err : errval_t) : Option handler_out :=
  match args with
  | [arg_cell.chan lc, arg_cell.u32 client_id] =>
    let t := [event.lmp_chan_send2 lc E.LMP_FLAG_SYNC E.NULL_CAP E.AOS_RPC_OK client_id
      send_err]
    if CHECK_returns E send_err then some ⟨st, t, send_err⟩
    else some ⟨st, t, SYS_ERR_OK⟩
  | _ => none

/-- The continuation `parent_send_memory` (lines 144-167).  `fa` is the frame
allocator and `send_err` the return value of `lmp_chan_send3`.  An argument
array of another shape is returned as `none`. -/
def parent_send_memory (E : aos_env) (st : init_state) (args : List arg_cell)
    (fa : frame_alloc_fn) (send_err : errval_t) : Option handler_out :=
  match args with
  | [arg_cell.chan lc, arg_cell.u32 _, arg_cell.cap retcap, arg_cell.size size] =>
    let a := fa retcap size
    let code := if E.err_is_fail a.err then E.AOS_RPC_FAILED else E.AOS_RPC_OK
    let t := [event.frame_alloc retcap size a.err,
      event.lmp_chan_send3 lc E.LMP_FLAG_SYNC a.cap code a.err a.retsize send_err]
    if CHECK_returns E send_err then some ⟨st, t, send_err⟩
    else some ⟨st, t, SYS_ERR_OK⟩
  | _ => none

/-- The closures a trace passes to `lmp_chan_register_send`, in order. -/
def scheduled (t : List event) : List closure :=
  t.filterMap fun e =>
    match e with
    | event.lmp_chan_register_send _ c _ => some c
    | _ => none

/-- Result of a run of `recv_handler` over several messages: the results of
the runs that completed, the globals after the last of them, and the access
without defined behaviour that ended the run, if there was one. -/
structure run_out where
  outs : List handler_out
  st : init_state
  stopped : Option violation
deriving DecidableEq, Repr

/-- The event loop of `main` restricted to receive events: `recv_handler` is
run on each arriving message in turn, the globals threaded through, up to the
first run without defined behaviour. -/
def recv_handler_run (E : aos_env) (st : init_state) :
    List (lmp_chan × recv_in) → run_out
  | [] => ⟨[], st, none⟩
  | (lc, r) :: rest =>
    match recv_handler E st lc r with
    | outcome.undefined v => ⟨[], st, some v⟩
    | outcome.ok o =>
      let p := recv_handler_run E o.st rest
      ⟨o :: p.outs, p.st, p.stopped⟩

/-- A concrete instance of the header constants, used for evaluation. -/
def env0 : aos_env where
  AOS_RPC_OK := 0
  AOS_RPC_FAILED := 1
  AOS_RPC_HANDSHAKE := 2
  AOS_RPC_MEMORY := 3
  LMP_FLAG_SYNC := 1
  NULL_CAP := ⟨0, 0⟩
  err_is_fail := fun e => e != 0
  lmp_err_is_transient := fun e => e == 5

/-- A channel used for evaluation: the bootstrap channel of `main`. -/
def chan0 : lmp_chan := ⟨⟨1, 1⟩, ⟨0, 0⟩, 0⟩

/-- The message is a HANDSHAKE request: it has a first word and that word is
`AOS_RPC_HANDSHAKE` (the conditions of lines 53 and 59). -/
def is_handshake (E : aos_env) (r : recv_in) : Prop :=
  0 < r.words.length ∧ msg_word r 0 = E.AOS_RPC_HANDSHAKE

/-- The message is a MEMORY request: it has a first word and that word is
`AOS_RPC_MEMORY` (the conditions of lines 53 and 84). -/
def is_memory (E : aos_env) (r : recv_in) : Prop :=
  0 < r.words.length ∧ msg_word r 0 = E.AOS_RPC_MEMORY

instance (E : aos_env) (r : recv_in) : Decidable (is_handshake E r) := by
  unfold is_handshake; infer_instance

instance (E : aos_env) (r : recv_in) : Decidable (is_memory E r) := by
  unfold is_memory; infer_instance

/-- The client id a closure carries in `args[1]`. -/
def client_id_arg (c : closure) : Option Nat :=
  match c.args[1]? with
  | some (arg_cell.u32 n) => some n
  | _ => none

/-- The target channel a closure carries in `args[0]`. -/
def target_chan_arg (c : closure) : Option lmp_chan :=
  match c.args[0]? with
  | some (arg_cell.chan lc) => some lc
  | _ => none

/-! ## The dispatcher: the waitset and the loop of `main` -/

/-- The waitset as `main.c` uses it.  `main` registers one channel for
receive (`lc[0]`, field `chan`); `recv_handler` registers its send
continuations on that same channel.  `recv_registered` says that a receive
closure is registered, `send_registered` lists the send continuations that are
registered and have not run. -/
structure dispatcher where
  globals : init_state
  chan : lmp_chan
  recv_registered : Bool
  send_registered : List closure
deriving DecidableEq, Repr

/-- Effect of one library call on the registrations: a receive registration
arms the receive, a send registration that succeeded queues its closure. -/
def waitset_apply (E : aos_env) (w : Bool × List closure) (e : event) :
    Bool × List closure :=
  match e with
  | event.lmp_chan_register_recv _ _ => (true, w.2)
  | event.lmp_chan_register_send _ c ret =>
    if E.err_is_fail ret then w else (w.1, w.2 ++ [c])
  | _ => w

/-- One iteration of `event_dispatch` that fires the receive closure: the
registration is consumed, `recv_handler` runs, and its library calls update
the registrations.  There is no next dispatcher when the run has no defined
behaviour. -/
def dispatch_recv (E : aos_env) (d : dispatcher) (r : recv_in) : Option dispatcher :=
  match recv_handler E d.globals d.chan r with
  | outcome.undefined _ => none
  | outcome.ok o =>
    let w := o.trace.foldl (waitset_apply E) (false, d.send_registered)
    some ⟨o.st, d.chan, w.1, w.2⟩

/-- Run a registered send continuation. -/
def run_closure (E : aos_env) (st : init_state) (c : closure) (fa : frame_alloc_fn)
    (send_err : errval_t) : Option handler_out :=
  match c.handler with
  | handler_fn.parent_send_handshake => parent_send_handshake E st c.args send_err
  | handler_fn.parent_send_memory => parent_send_memory E st c.args fa send_err
  | handler_fn.recv_handler => none

/-- One iteration of `event_dispatch` that fires the send continuation `c`:
the registration is consumed, the continuation runs, and its library calls
update the registrations. -/
def dispatch_send (E : aos_env) (d : dispatcher) (c : closure) (fa : frame_alloc_fn)
    (send_err : errval_t) : Option dispatcher :=
  (run_closure E d.globals c fa send_err).map fun o =>
    let w := o.trace.foldl (waitset_apply E) (d.recv_registered, d.send_registered.erase c)
    ⟨o.st, d.chan, w.1, w.2⟩

/-- The step relation of the loop `while (true) event_dispatch(default_ws)`:
a step fires the registered receive closure or one registered send
continuation.  `main.c` does not fix the order in which the waitset fires what
is registered, so any registered closure may be the next. -/
inductive dispatch_step (E : aos_env) : dispatcher → dispatcher → Prop
  | recv (d d1 : dispatcher) (r : recv_in) :
      d.recv_registered = true → dispatch_recv E d r = some d1 → dispatch_step E d d1
  | send (d d1 : dispatcher) (c : closure) (fa : frame_alloc_fn) (send_err : errval_t) :
      c ∈ d.send_registered → dispatch_send E d c fa send_err = some d1 →
      dispatch_step E d d1

/-- The dispatcher when `main` enters its loop: no client, the receive
registered on the bootstrap channel, no send registered. -/
def dispatcher.start (lc : lmp_chan) : dispatcher :=
  ⟨init_state.empty, lc, true, []⟩

/-! ## Concrete inputs used for evaluation -/

/-- A HANDSHAKE message (under `env0`) carrying the capability `c`; every
library call succeeds, and a `realloc`, if one is made, resizes the block
where it is. -/
def msg_handshake (c : capref) : recv_in := ⟨0, [2], c, 0, 0, false⟩

/-- A HANDSHAKE message (under `env0`) carrying the capability `c`; every
library call succeeds, and a `realloc`, if one is made, moves the block. -/
def msg_handshake_moved (c : capref) : recv_in := ⟨0, [2], c, 0, 0, true⟩

/-- A MEMORY request (under `env0`) of client `id` for `size` bytes with the
receiving slot `c`; every library call succeeds. -/
def msg_memory (id size : Nat) (c : capref) : recv_in :=
  ⟨0, [3, id, size], c, 0, 0, false⟩

/-- A message (under `env0`) whose first word 99 is no known opcode. -/
def msg_unknown : recv_in := ⟨0, [99], ⟨0, 0⟩, 0, 0, false⟩

/-- A receive that failed with the transient error 5 (under `env0`): the
message is still `LMP_RECV_MSG_INIT`, with no word. -/
def msg_transient : recv_in := ⟨5, [], ⟨0, 0⟩, 0, 0, false⟩

/-- The registry entry of client 0: the bootstrap channel `chan0` with the
capability (7,7) as `remote`. -/
def entry0 : lmp_chan := ⟨⟨1, 1⟩, ⟨7, 7⟩, 0⟩

/-- The globals after one handshake that arrived on `chan0` with the
capability (7,7): a block of one entry, `num_conns = 1`. -/
def state_one : init_state :=
  ⟨clients_ptr.block [some entry0], 1⟩

/-- Three handshakes arriving on the bootstrap channel; the `realloc` calls
of the second and the third move the block. -/
def three_handshakes : List (lmp_chan × recv_in) :=
  [(chan0, msg_handshake ⟨7, 7⟩), (chan0, msg_handshake_moved ⟨8, 8⟩),
   (chan0, msg_handshake_moved ⟨9, 9⟩)]

/-- Two handshakes, the second with a `realloc` that moves the block, followed
by a MEMORY request of client 0. -/
def handshakes_then_memory : List (lmp_chan × recv_in) :=
  [(chan0, msg_handshake ⟨7, 7⟩), (chan0, msg_handshake_moved ⟨8, 8⟩),
   (chan0, msg_memory 0 4096 ⟨9, 9⟩)]

/-- Two handshakes, the second with a `realloc` that moves the block. -/
def two_handshakes : List (lmp_chan × recv_in) :=
  [(chan0, msg_handshake ⟨7, 7⟩), (chan0, msg_handshake_moved ⟨8, 8⟩)]

/-- The response to the handshake R1: `parent_send_handshake` on the entry of
client 0 with id 0. -/
def response_r1 : closure :=
  ⟨handler_fn.parent_send_handshake, [arg_cell.chan entry0, arg_cell.u32 0]⟩

/-- The response to the memory request R2 of client 0. -/
def response_r2 : closure :=
  ⟨handler_fn.parent_send_memory,
    [arg_cell.chan entry0, arg_cell.u32 0, arg_cell.cap ⟨9, 9⟩,
      arg_cell.size 4096]⟩

/-- The dispatcher after the first request R1, a handshake, was dispatched
from the start. -/
def after_r1 : dispatcher :=
  ⟨state_one, chan0, true, [response_r1]⟩

/-- The dispatcher after the second request R2, a memory request of client 0,
was dispatched from `after_r1`. -/
def after_r2 : dispatcher :=
  ⟨state_one, chan0, true, [response_r1, response_r2]⟩

/-- A frame allocator that grants the request rounded up to 4096-byte pages
in a fresh slot. -/
def fa_ok : frame_alloc_fn := fun _ size => ⟨0, ⟨20, 1⟩, (size + 4095) / 4096 * 4096⟩

/-- A frame allocator that fails with error 7 and writes neither `*retcap`
nor `retsize`; 4242 is the content of the uninitialised `retsize`. -/
def fa_fail : frame_alloc_fn := fun c _ => ⟨7, c, 4242⟩

/-! ## Lemmas on the pieces of `recv_handler` -/

theorem reregister_st (E : aos_env) (lc : lmp_chan) (r : recv_in) (st : init_state)
    (t : List event) : (recv_handler_reregister E lc r st t).st = st := by
  unfold recv_handler_reregister
  split <;> rfl

theorem respond_st (E : aos_env) (lc : lmp_chan) (r : recv_in) (st : init_state)
    (t : List event) (f : handler_fn) (a : List arg_cell) :
    (recv_handler_respond E lc r st t f a).st = st := by
  unfold recv_handler_respond
  split
  · rfl
  · exact reregister_st E lc r st _

theorem scheduled_append (t u : List event) :
    scheduled (t ++ u) = scheduled t ++ scheduled u := by
  simp [scheduled, List.filterMap_append]

theorem reregister_scheduled (E : aos_env) (lc : lmp_chan) (r : recv_in)
    (st : init_state) (t : List event) :
    scheduled (recv_handler_reregister E lc r st t).trace = scheduled t := by
  unfold recv_handler_reregister
  split <;> simp [scheduled, List.filterMap_append]

theorem respond_scheduled (E : aos_env) (lc : lmp_chan) (r : recv_in)
    (st : init_state) (t : List event) (f : handler_fn) (a : List arg_cell) :
    scheduled (recv_handler_respond E lc r st t f a).trace = scheduled t ++ [⟨f, a⟩] := by
  unfold recv_handler_respond
  split
  · simp [scheduled, List.filterMap_append]
  · rw [reregister_scheduled]
    simp [scheduled, List.filterMap_append]

/-- The receive part of the trace registers no send. -/
theorem recv_part_scheduled (E : aos_env) (lc : lmp_chan) (r : recv_in) :
    scheduled (recv_handler_receive E lc r) = [] := by
  unfold recv_handler_receive
  split <;> simp [scheduled]

/-- With both checked calls succeeding, the response step appends the send
registration, the slot allocation and the receive registration, and returns
the error value of the receive. -/
theorem respond_ok (E : aos_env) (lc : lmp_chan) (r : recv_in) (st : init_state)
    (t : List event) (f : handler_fn) (a : List arg_cell)
    (hs : E.err_is_fail r.register_send_err = false)
    (ha : E.err_is_fail r.alloc_recv_slot_err = false) :
    (recv_handler_respond E lc r st t f a).trace =
      t ++ [event.lmp_chan_register_send lc ⟨f, a⟩ r.register_send_err,
        event.lmp_chan_alloc_recv_slot lc r.alloc_recv_slot_err,
        event.lmp_chan_register_recv lc (recv_closure lc)] ∧
    (recv_handler_respond E lc r st t f a).ret = r.err := by
  simp [recv_handler_respond, recv_handler_reregister, CHECK_returns, hs, ha]

theorem memory_defined (E : aos_env) (st : init_state) (lc : lmp_chan) (r : recv_in)
    (target : lmp_chan) (h : is_memory E r)
    (hne : E.AOS_RPC_HANDSHAKE ≠ E.AOS_RPC_MEMORY)
    (hread : clients_load st.clients (msg_word r 1) = outcome.ok target) :
    recv_handler E st lc r =
      outcome.ok (recv_handler_respond E lc r st (recv_handler_receive E lc r)
        handler_fn.parent_send_memory
        [arg_cell.chan target, arg_cell.u32 (msg_word r 1), arg_cell.cap r.cap,
          arg_cell.size (msg_word r 2)]) := by
  obtain ⟨h0, h1⟩ := h
  have h2 : ¬ E.AOS_RPC_MEMORY = E.AOS_RPC_HANDSHAKE := fun e => hne e.symm
  unfold recv_handler
  simp only [h0, h1, h2, if_true, if_false, hread]

/-- A HANDSHAKE or MEMORY request whose run is defined ends in the response
step. -/
theorem recognised_defined (E : aos_env) (st : init_state) (lc : lmp_chan) (r : recv_in)
    (o : handler_out) (hrec : is_handshake E r ∨ is_memory E r)
    (hne : E.AOS_RPC_HANDSHAKE ≠ E.AOS_RPC_MEMORY)
    (hdef : recv_handler E st lc r = outcome.ok o) :
    ∃ st1 f a, o = recv_handler_respond E lc r st1 (recv_handler_receive E lc r) f a := by
  have h2 : ¬ E.AOS_RPC_MEMORY = E.AOS_RPC_HANDSHAKE := fun e => hne e.symm
  unfold recv_handler at hdef
  rcases hrec with ⟨h0, h1⟩ | ⟨h0, h1⟩
  · simp only [h0, h1, if_true] at hdef
    split at hdef
    · cases hdef
    · split at hdef
      · cases hdef
      · split at hdef
        · cases hdef
        · cases hdef
          exact ⟨_, _, _, rfl⟩
  · simp only [h0, h1, h2, if_true, if_false] at hdef
    split at hdef
    · cases hdef
    · cases hdef
      exact ⟨_, _, _, rfl⟩

/-- The receive part of the trace queues no send. -/
theorem waitset_receive (E : aos_env) (lc : lmp_chan) (r : recv_in)
    (w : Bool × List closure) :
    ((recv_handler_receive E lc r).foldl (waitset_apply E) w).2 = w.2 := by
  unfold recv_handler_receive
  split <;> simp [waitset_apply]

/-- After the receive part, a send registration that succeeds, a slot
allocation and a receive registration leave the receive armed and the closure
queued last. -/
theorem waitset_recognised (E : aos_env) (lc : lmp_chan) (r : recv_in)
    (w : Bool × List closure) (c : closure)
    (hs : E.err_is_fail r.register_send_err = false) :
    (recv_handler_receive E lc r ++
        [event.lmp_chan_register_send lc c r.register_send_err,
          event.lmp_chan_alloc_recv_slot lc r.alloc_recv_slot_err,
          event.lmp_chan_register_recv lc (recv_closure lc)]).foldl (waitset_apply E) w =
      (true, w.2 ++ [c]) := by
  rw [List.foldl_append]
  have h := waitset_receive E lc r w
  simp only [List.foldl_cons, List.foldl_nil, waitset_apply, hs]
  simp [h]

/-- A send continuation makes no registration: its trace leaves the
registrations as they are. -/
theorem waitset_continuation (E : aos_env) (st : init_state) (c : closure)
    (fa : frame_alloc_fn) (send_err : errval_t) (o : handler_out)
    (h : run_closure E st c fa send_err = some o) (w : Bool × List closure) :
    o.trace.foldl (waitset_apply E) w = w := by
  unfold run_closure at h
  split at h
  · unfold parent_send_handshake at h
    split at h
    · split at h <;> (cases h; rfl)
    · cases h
  · unfold parent_send_memory at h
    split at h
    · simp only [] at h
      split at h <;> (cases h; rfl)
    · cases h
  · cases h

/-! ## The claims -/

/-- C1 at the failing input: three handshakes, where the `realloc` of the
second returns a new block.  The first handshake is given id 0.  The second
writes `clients[1]` through the pointer to the freed block, so the run has no
defined behaviour from there: the ids 1 and 2 are not issued by a defined run
and `num_conns` does not reach 3. -/
theorem handshake_ids_stop_at_moved_realloc :
    (∀ y ∈ three_handshakes, is_handshake env0 y.2) ∧
    ((recv_handler_run env0 init_state.empty three_handshakes).outs.map
      fun o => (scheduled o.trace).map client_id_arg) = [[some 0]] ∧
    (recv_handler_run env0 init_state.empty three_handshakes).stopped =
      some violation.dangling ∧
    (recv_handler_run env0 init_state.empty three_handshakes).st.num_conns = 1 := by
  decide

/-- C2 at the failing input: two handshakes, the second with a `realloc` that
returns a new block, then a MEMORY request of client 0.  The run stops at the
second handshake, whose table write goes through the pointer to the freed
block; the only response scheduled by a defined run is the one of the first
handshake, and the request of client 0 is not routed to the entry made for
it. -/
theorem memory_request_after_moved_realloc :
    ((recv_handler_run env0 init_state.empty handshakes_then_memory).outs.map
      fun o => (scheduled o.trace).map target_chan_arg) =
        [[some entry0]] ∧
    ((recv_handler_run env0 init_state.empty handshakes_then_memory).outs.map
      fun o => (scheduled o.trace).map fun c => c.handler) =
        [[handler_fn.parent_send_handshake]] ∧
    (recv_handler_run env0 init_state.empty handshakes_then_memory).stopped =
      some violation.dangling := by
  decide

/-- C6 at the failing input: a handshake that arrives when `num_conns` is 1
and whose `realloc` returns a new block.  The first handshake, on the empty
registry, leaves the one-entry table `state_one`.  The second one leaves
`clients` pointing to the freed block and writes `clients[1]` through it: no
entry is appended by a defined run and no response is scheduled. -/
theorem second_handshake_writes_freed_block :
    recv_handler env0 init_state.empty chan0 (msg_handshake ⟨7, 7⟩) =
      outcome.ok ⟨state_one,
        [event.lmp_chan_recv chan0 0,
         event.lmp_chan_register_send chan0 response_r1 0,
         event.lmp_chan_alloc_recv_slot chan0 0,
         event.lmp_chan_register_recv chan0 (recv_closure chan0)], 0⟩ ∧
    is_handshake env0 (msg_handshake_moved ⟨8, 8⟩) ∧
    clients_alloc state_one.clients state_one.num_conns true =
      outcome.ok clients_ptr.freed ∧
    recv_handler env0 state_one chan0 (msg_handshake_moved ⟨8, 8⟩) =
      outcome.undefined violation.dangling := by
  decide

/-- C10 at the failing input: two handshakes, the second with a `realloc` that
returns a new block.  After the first, `clients[0]` is the entry of client 0.
The second frees the block that holds it and writes through the old pointer,
so no defined state follows in which `clients[0]` is still that entry. -/
theorem entry_not_kept_after_moved_realloc :
    (recv_handler_run env0 init_state.empty [(chan0, msg_handshake ⟨7, 7⟩)]).st = state_one ∧
    clients_load state_one.clients 0 = outcome.ok entry0 ∧
    (recv_handler_run env0 init_state.empty two_handshakes).outs.length = 1 ∧
    (recv_handler_run env0 init_state.empty two_handshakes).stopped =
      some violation.dangling := by
  decide

/-- C3 at the failing input: a MEMORY request citing client id 5.  With no
client registered `clients` is `NULL` and the read `clients[5]` dereferences
it; with one client registered the read is past the end of the one-entry
block.  In neither case does `recv_handler` return a protocol error. -/
theorem unknown_client_reads_outside_table :
    is_memory env0 (msg_memory 5 4096 ⟨9, 9⟩) ∧
    init_state.empty.num_conns ≤ msg_word (msg_memory 5 4096 ⟨9, 9⟩) 1 ∧
    recv_handler env0 init_state.empty chan0 (msg_memory 5 4096 ⟨9, 9⟩) =
      outcome.undefined violation.null_deref ∧
    state_one.num_conns ≤ msg_word (msg_memory 5 4096 ⟨9, 9⟩) 1 ∧
    recv_handler env0 state_one chan0 (msg_memory 5 4096 ⟨9, 9⟩) =
      outcome.undefined violation.out_of_bounds := by
  decide

/-- C4: for a MEMORY request with a valid client id (below `num_conns`, the
table holding the entry `target` for it) and requested size s (word 2),
`recv_handler` schedules `parent_send_memory`; when the frame allocator
succeeds (returns `SYS_ERR_OK`) and grants at least what it is asked for, that
continuation asks the allocator for exactly s and sends on the client's entry
the three words `AOS_RPC_OK`, 0, actual size together with the granted
capability, and the actual size is at least s. -/
theorem memory_grant_success (E : aos_env) (st : init_state) (lc : lmp_chan)
    (r : recv_in) (fa : frame_alloc_fn) (send_err : errval_t) (target : lmp_chan)
    (hm : is_memory E r) (hne : E.AOS_RPC_HANDSHAKE ≠ E.AOS_RPC_MEMORY)
    (_hid : msg_word r 1 < st.num_conns)
    (hread : clients_load st.clients (msg_word r 1) = outcome.ok target)
    (herr : (fa r.cap (msg_word r 2)).err = SYS_ERR_OK)
    (hok : E.err_is_fail SYS_ERR_OK = false)
    (hsz : msg_word r 2 ≤ (fa r.cap (msg_word r 2)).retsize) :
    ∃ o args,
      recv_handler E st lc r = outcome.ok o ∧
      scheduled o.trace = [⟨handler_fn.parent_send_memory, args⟩] ∧
      (parent_send_memory E o.st args fa send_err).map (fun o1 => o1.trace) =
        some [event.frame_alloc r.cap (msg_word r 2) 0,
          event.lmp_chan_send3 target E.LMP_FLAG_SYNC
            (fa r.cap (msg_word r 2)).cap E.AOS_RPC_OK 0
            (fa r.cap (msg_word r 2)).retsize send_err] ∧
      msg_word r 2 ≤ (fa r.cap (msg_word r 2)).retsize := by
  refine ⟨_, [arg_cell.chan target, arg_cell.u32 (msg_word r 1), arg_cell.cap r.cap,
    arg_cell.size (msg_word r 2)],
    memory_defined E st lc r target hm hne hread, ?_, ?_, hsz⟩
  · rw [respond_scheduled, recv_part_scheduled]
    rfl
  · simp only [parent_send_memory, herr, hok]
    split <;> simp [SYS_ERR_OK]

theorem memory_grant_success_witness :
    is_memory env0 (msg_memory 0 5000 ⟨9, 9⟩) ∧
    env0.AOS_RPC_HANDSHAKE ≠ env0.AOS_RPC_MEMORY ∧
    msg_word (msg_memory 0 5000 ⟨9, 9⟩) 1 < state_one.num_conns ∧
    clients_load state_one.clients (msg_word (msg_memory 0 5000 ⟨9, 9⟩) 1) =
      outcome.ok entry0 ∧
    (fa_ok (msg_memory 0 5000 ⟨9, 9⟩).cap (msg_word (msg_memory 0 5000 ⟨9, 9⟩) 2)).err =
      SYS_ERR_OK ∧
    env0.err_is_fail SYS_ERR_OK = false ∧
    msg_word (msg_memory 0 5000 ⟨9, 9⟩) 2 ≤
      (fa_ok (msg_memory 0 5000 ⟨9, 9⟩).cap (msg_word (msg_memory 0 5000 ⟨9, 9⟩) 2)).retsize ∧
    ∃ o args,
      recv_handler env0 state_one chan0 (msg_memory 0 5000 ⟨9, 9⟩) = outcome.ok o ∧
      scheduled o.trace = [⟨handler_fn.parent_send_memory, args⟩] ∧
      (parent_send_memory env0 o.st args fa_ok 0).map (fun o1 => o1.trace) =
        some [event.frame_alloc (msg_memory 0 5000 ⟨9, 9⟩).cap
            (msg_word (msg_memory 0 5000 ⟨9, 9⟩) 2) 0,
          event.lmp_chan_send3 entry0 env0.LMP_FLAG_SYNC
            (fa_ok (msg_memory 0 5000 ⟨9, 9⟩).cap
              (msg_word (msg_memory 0 5000 ⟨9, 9⟩) 2)).cap env0.AOS_RPC_OK 0
            (fa_ok (msg_memory 0 5000 ⟨9, 9⟩).cap
              (msg_word (msg_memory 0 5000 ⟨9, 9⟩) 2)).retsize 0] ∧
      msg_word (msg_memory 0 5000 ⟨9, 9⟩) 2 ≤
        (fa_ok (msg_memory 0 5000 ⟨9, 9⟩).cap
          (msg_word (msg_memory 0 5000 ⟨9, 9⟩) 2)).retsize :=
  ⟨by decide, by decide, by decide, by decide, by decide, by decide, by decide,
    memory_grant_success env0 state_one chan0 (msg_memory 0 5000 ⟨9, 9⟩) fa_ok 0
      entry0 (by decide) (by decide) (by decide) (by decide)
      (by decide) (by decide) (by decide)⟩

/-- C5, the claim at a concrete input.  After one handshake client 0 asks for
4096 bytes with the receiving slot (9,9); the allocator fails with error 7 and
writes nothing.  The continuation sends `AOS_RPC_FAILED`, 7 and the content
4242 of `retsize` with the capability (9,9): the capability is not `NULL_CAP`
and the size word is not 0. -/
theorem memory_grant_failure_counterexample :
    is_memory env0 (msg_memory 0 4096 ⟨9, 9⟩) ∧
    msg_word (msg_memory 0 4096 ⟨9, 9⟩) 1 < state_one.num_conns ∧
    recv_handler env0 state_one chan0 (msg_memory 0 4096 ⟨9, 9⟩) =
      outcome.ok ⟨state_one,
        [event.lmp_chan_recv chan0 0,
         event.lmp_chan_register_send chan0 response_r2 0,
         event.lmp_chan_alloc_recv_slot chan0 0,
         event.lmp_chan_register_recv chan0 (recv_closure chan0)], 0⟩ ∧
    env0.err_is_fail (fa_fail ⟨9, 9⟩ 4096).err = true ∧
    (parent_send_memory env0 state_one response_r2.args fa_fail 0).map (fun o => o.trace) =
      some [event.frame_alloc ⟨9, 9⟩ 4096 7,
        event.lmp_chan_send3 entry0 env0.LMP_FLAG_SYNC ⟨9, 9⟩
          env0.AOS_RPC_FAILED 7 4242 0] ∧
    (⟨9, 9⟩ : capref) ≠ env0.NULL_CAP ∧ (4242 : Nat) ≠ 0 := by
  decide

/-- C5 as amended: for a MEMORY request with a valid client id (below
`num_conns`, the table holding the entry `target` for it), when the frame
allocator fails with error e, the scheduled `parent_send_memory` sends on the
client's entry three words of which the first two are `AOS_RPC_FAILED` and e;
the third word and the capability are whatever the allocator left in
`retsize` and `*retcap`, and nothing replaces them by 0 and `NULL_CAP`. -/
theorem memory_grant_failure (E : aos_env) (st : init_state) (lc : lmp_chan)
    (r : recv_in) (fa : frame_alloc_fn) (send_err : errval_t) (target : lmp_chan)
    (hm : is_memory E r) (hne : E.AOS_RPC_HANDSHAKE ≠ E.AOS_RPC_MEMORY)
    (_hid : msg_word r 1 < st.num_conns)
    (hread : clients_load st.clients (msg_word r 1) = outcome.ok target)
    (hfail : E.err_is_fail (fa r.cap (msg_word r 2)).err = true) :
    ∃ o args,
      recv_handler E st lc r = outcome.ok o ∧
      scheduled o.trace = [⟨handler_fn.parent_send_memory, args⟩] ∧
      (parent_send_memory E o.st args fa send_err).map (fun o1 => o1.trace) =
        some [event.frame_alloc r.cap (msg_word r 2) (fa r.cap (msg_word r 2)).err,
          event.lmp_chan_send3 target E.LMP_FLAG_SYNC
            (fa r.cap (msg_word r 2)).cap E.AOS_RPC_FAILED (fa r.cap (msg_word r 2)).err
            (fa r.cap (msg_word r 2)).retsize send_err] := by
  refine ⟨_, [arg_cell.chan target, arg_cell.u32 (msg_word r 1), arg_cell.cap r.cap,
    arg_cell.size (msg_word r 2)],
    memory_defined E st lc r target hm hne hread, ?_, ?_⟩
  · rw [respond_scheduled, recv_part_scheduled]
    rfl
  · simp only [parent_send_memory, hfail]
    split <;> simp

theorem memory_grant_failure_witness :
    is_memory env0 (msg_memory 0 4096 ⟨9, 9⟩) ∧
    env0.AOS_RPC_HANDSHAKE ≠ env0.AOS_RPC_MEMORY ∧
    msg_word (msg_memory 0 4096 ⟨9, 9⟩) 1 < state_one.num_conns ∧
    clients_load state_one.clients (msg_word (msg_memory 0 4096 ⟨9, 9⟩) 1) =
      outcome.ok entry0 ∧
    env0.err_is_fail
      (fa_fail (msg_memory 0 4096 ⟨9, 9⟩).cap (msg_word (msg_memory 0 4096 ⟨9, 9⟩) 2)).err =
        true ∧
    ∃ o args,
      recv_handler env0 state_one chan0 (msg_memory 0 4096 ⟨9, 9⟩) = outcome.ok o ∧
      scheduled o.trace = [⟨handler_fn.parent_send_memory, args⟩] ∧
      (parent_send_memory env0 o.st args fa_fail 0).map (fun o1 => o1.trace) =
        some [event.frame_alloc (msg_memory 0 4096 ⟨9, 9⟩).cap
            (msg_word (msg_memory 0 4096 ⟨9, 9⟩) 2)
            (fa_fail (msg_memory 0 4096 ⟨9, 9⟩).cap
              (msg_word (msg_memory 0 4096 ⟨9, 9⟩) 2)).err,
          event.lmp_chan_send3 entry0 env0.LMP_FLAG_SYNC
            (fa_fail (msg_memory 0 4096 ⟨9, 9⟩).cap
              (msg_word (msg_memory 0 4096 ⟨9, 9⟩) 2)).cap env0.AOS_RPC_FAILED
            (fa_fail (msg_memory 0 4096 ⟨9, 9⟩).cap
              (msg_word (msg_memory 0 4096 ⟨9, 9⟩) 2)).err
            (fa_fail (msg_memory 0 4096 ⟨9, 9⟩).cap
              (msg_word (msg_memory 0 4096 ⟨9, 9⟩) 2)).retsize 0] :=
  ⟨by decide, by decide, by decide, by decide, by decide,
    memory_grant_failure env0 state_one chan0 (msg_memory 0 4096 ⟨9, 9⟩) fa_fail 0
      entry0 (by decide) (by decide) (by decide) (by decide)
      (by decide)⟩

/-- C7, the claim at a concrete input.  From the start, dispatching the
handshake R1 leaves its response registered for send and the receive callback
registered again; the loop may then dispatch the request R2, after which the
response to R1 is still waiting to be sent. -/
theorem response_order_counterexample :
    dispatch_step env0 (dispatcher.start chan0) after_r1 ∧
    after_r1.send_registered =
      [⟨handler_fn.parent_send_handshake,
        [arg_cell.chan entry0, arg_cell.u32 0]⟩] ∧
    after_r1.recv_registered = true ∧
    dispatch_step env0 after_r1 after_r2 ∧
    after_r2.send_registered =
      [⟨handler_fn.parent_send_handshake,
        [arg_cell.chan entry0, arg_cell.u32 0]⟩,
       ⟨handler_fn.parent_send_memory,
        [arg_cell.chan entry0, arg_cell.u32 0, arg_cell.cap ⟨9, 9⟩,
          arg_cell.size 4096]⟩] :=
  ⟨dispatch_step.recv _ _ (msg_handshake ⟨7, 7⟩) (by decide) (by decide), by decide,
    by decide,
    dispatch_step.recv _ _ (msg_memory 0 4096 ⟨9, 9⟩) (by decide) (by decide), by decide⟩

/-- C7 as amended: `recv_handler` re-registers the receive callback in the
same run that registers the send continuation.  After a HANDSHAKE or MEMORY
request is dispatched (the run being defined, with result `o`) with the send
registration and the slot allocation succeeding, the receive is registered
again while the new response is the last registered send; a send
continuation, when it runs, is removed from the registered sends and changes
neither the receive registration nor the other registered sends. -/
theorem receive_rearmed_with_send_pending (E : aos_env) (d : dispatcher) (r : recv_in)
    (o : handler_out)
    (hrec : is_handshake E r ∨ is_memory E r)
    (hne : E.AOS_RPC_HANDSHAKE ≠ E.AOS_RPC_MEMORY)
    (hs : E.err_is_fail r.register_send_err = false)
    (ha : E.err_is_fail r.alloc_recv_slot_err = false)
    (hdef : recv_handler E d.globals d.chan r = outcome.ok o) :
    (∃ c, scheduled o.trace = [c] ∧
      dispatch_recv E d r = some ⟨o.st, d.chan, true, d.send_registered ++ [c]⟩) ∧
    ∀ c fa send_err d1, dispatch_send E d c fa send_err = some d1 →
      d1.recv_registered = d.recv_registered ∧
      d1.send_registered = d.send_registered.erase c := by
  constructor
  · obtain ⟨st1, f, a, ho⟩ := recognised_defined E d.globals d.chan r o hrec hne hdef
    have ht := (respond_ok E d.chan r st1 (recv_handler_receive E d.chan r) f a hs ha).1
    have hsch := respond_scheduled E d.chan r st1 (recv_handler_receive E d.chan r) f a
    rw [recv_part_scheduled] at hsch
    rw [← ho] at ht hsch
    refine ⟨⟨f, a⟩, hsch, ?_⟩
    simp only [dispatch_recv, hdef]
    rw [ht, waitset_recognised E d.chan r _ _ hs]
  · intro c fa send_err d1 h
    unfold dispatch_send at h
    cases ho : run_closure E d.globals c fa send_err with
    | none => rw [ho] at h; cases h
    | some o1 =>
      rw [ho] at h
      simp only [Option.map_some'] at h
      have hw := waitset_continuation E d.globals c fa send_err o1 ho
        (d.recv_registered, d.send_registered.erase c)
      cases h
      simp only [hw]
      trivial

theorem receive_rearmed_with_send_pending_witness :
    (is_handshake env0 (msg_handshake ⟨7, 7⟩) ∨ is_memory env0 (msg_handshake ⟨7, 7⟩)) ∧
    env0.AOS_RPC_HANDSHAKE ≠ env0.AOS_RPC_MEMORY ∧
    env0.err_is_fail (msg_handshake ⟨7, 7⟩).register_send_err = false ∧
    env0.err_is_fail (msg_handshake ⟨7, 7⟩).alloc_recv_slot_err = false ∧
    recv_handler env0 (dispatcher.start chan0).globals (dispatcher.start chan0).chan
        (msg_handshake ⟨7, 7⟩) =
      outcome.ok ⟨state_one,
        [event.lmp_chan_recv chan0 0,
         event.lmp_chan_register_send chan0 response_r1 0,
         event.lmp_chan_alloc_recv_slot chan0 0,
         event.lmp_chan_register_recv chan0 (recv_closure chan0)], 0⟩ ∧
    ∃ c, scheduled [event.lmp_chan_recv chan0 0,
         event.lmp_chan_register_send chan0 response_r1 0,
         event.lmp_chan_alloc_recv_slot chan0 0,
         event.lmp_chan_register_recv chan0 (recv_closure chan0)] = [c] ∧
      dispatch_recv env0 (dispatcher.start chan0) (msg_handshake ⟨7, 7⟩) =
        some ⟨state_one, chan0, true, (dispatcher.start chan0).send_registered ++ [c]⟩ :=
  ⟨by decide, by decide, by decide, by decide, by decide,
    (receive_rearmed_with_send_pending env0 (dispatcher.start chan0)
      (msg_handshake ⟨7, 7⟩)
      ⟨state_one,
        [event.lmp_chan_recv chan0 0,
         event.lmp_chan_register_send chan0 response_r1 0,
         event.lmp_chan_alloc_recv_slot chan0 0,
         event.lmp_chan_register_recv chan0 (recv_closure chan0)], 0⟩
      (by decide) (by decide) (by decide) (by decide) (by decide)).1⟩

/-- C8 at the failing input: a message whose first word 99 is no known opcode.
`recv_handler` returns 1 right after the receive: it provisions no receive
slot and registers no receive callback, so after the step the dispatcher has
no receive registered. -/
theorem unknown_opcode_not_rearmed :
    ¬ is_handshake env0 msg_unknown ∧ ¬ is_memory env0 msg_unknown ∧
    recv_handler env0 init_state.empty chan0 msg_unknown =
      outcome.ok ⟨init_state.empty, [event.lmp_chan_recv chan0 0], 1⟩ ∧
    dispatch_recv env0 (dispatcher.start chan0) msg_unknown =
      some ⟨init_state.empty, chan0, false, []⟩ := by
  decide

/-- C9 at the failing input: the receive fails with the transient error 5 and
the message has no word.  `recv_handler` registers the receive callback, does
not return, provisions a receive slot and registers the receive callback a
second time before it returns the error. -/
theorem transient_receive_registers_twice :
    (env0.err_is_fail msg_transient.err && env0.lmp_err_is_transient msg_transient.err) =
      true ∧
    recv_handler env0 init_state.empty chan0 msg_transient =
      outcome.ok ⟨init_state.empty,
        [event.lmp_chan_recv chan0 5,
         event.lmp_chan_register_recv chan0 (recv_closure chan0),
         event.lmp_chan_alloc_recv_slot chan0 0,
         event.lmp_chan_register_recv chan0 (recv_closure chan0)], 5⟩ := by
  decide

end Barrelfish
